import Mathlib

/-!
# TicketBoss: seat inventory and reservation ledger

A shallow embedding of `server.js`.  The PostgreSQL store is a pair of tables,
each a list of rows in storage order; every SQL statement of the handlers is a
function on that store, and every HTTP handler is the composition of its
statements in source order, returning the store it leaves behind, the HTTP
response it sends and the list of statements it sent.

Conventions of the embedding:

* `BEGIN ... COMMIT` installs the store produced by the statements in between;
  a path that issues `ROLLBACK` returns the store it started from.
* The store is reliable: a statement throws only when the store refuses one of
  its parameters (a `seats` that is not a whole number, see `seatsColumn`), so
  of the `catch` blocks only the one of `POST /reservations/` is entered.  The
  responses of all four are recorded as constants (`bootstrapFailed`,
  `createFailed`, `cancelFailed`, `summaryFailed`).
* `generateReservationId()` reads the clock and a random source; the id it
  returns is an argument of the handler.
* The timestamp columns (`updated_at`, `cancelled_at`) are not part of the
  store.
* `seats` in a request body is a JSON number when present, taken as a
  rational; `partnerId` is a string when present.
-/

namespace TicketBoss

/-- The event id written into every statement of server.js. -/
def EVENT_ID : String := "node-meetup-2025"

/-- Modelled from the spec: a row of the `events` table, whose declaration is
not in server.js.  The columns are the ones the statements of server.js name;
`total_seats` is the capacity of the event, a count that no statement writes. -/
structure EventRow where
  event_id : String
  name : String
  total_seats : Nat
  available_seats : Int
  version : Int
deriving DecidableEq, Repr

/-- Modelled from the spec: a row of the `reservations` table, whose declaration
is not in server.js.  The columns are the ones the statements of server.js
name; the table carries no uniqueness constraint on `reservation_id`. -/
structure ReservationRow where
  reservation_id : String
  event_id : String
  partner_id : String
  seats : Int
  status : String
deriving DecidableEq, Repr

/-- The store: both tables, rows in storage order. -/
structure Db where
  events : List EventRow
  reservations : List ReservationRow
deriving DecidableEq, Repr

/-- The JSON payload of a response. -/
inductive Body where
  | error (message : String)
  | initialized (event : Option EventRow)
  | reservation (reservationId : String) (seats : ℚ) (status : String)
  | summary (eventId : String) (name : String) (totalSeats : Nat)
      (availableSeats : Int) (reservationCount : Nat) (version : Int)
  | empty
deriving DecidableEq, Repr

/-- An HTTP response: `res.status(code).json(body)` or `res.status(code).send()`. -/
structure Response where
  status : Nat
  body : Body
deriving DecidableEq, Repr

/-- Source: `validateSeatCount(seats)`, `seats > 0 && seats <= 10`, on any
number a JSON body can carry. -/
def validateSeatCount (seats : ℚ) : Bool :=
  decide (seats > 0) && decide (seats ≤ 10)

/-- JavaScript `!partnerId` for a field that is a string when present. -/
def notPartnerId : Option String → Bool
  | none => true
  | some p => decide (p = "")

/-- JavaScript `!seats` for a field that is a number when present. -/
def notSeats : Option ℚ → Bool
  | none => true
  | some q => decide (q = 0)

/-- Modelled from the spec: the `seats` column of the `reservations` table, whose
declaration is not in server.js, holds integers.  The value a number takes as a
statement parameter for that column; `none` when the store refuses the number
and the statement throws. -/
def seatsColumn (q : ℚ) : Option Int :=
  if q.den = 1 then some q.num else none

/-! ## The SQL statements -/

/-- Statement `SELECT ... FROM events WHERE event_id = 'node-meetup-2025'`
(with or without `FOR UPDATE`): the matching rows. -/
def selectEvent (db : Db) : List EventRow :=
  db.events.filter (fun e => decide (e.event_id = EVENT_ID))

/-- Statement `UPDATE events SET available_seats = total_seats, version = 0
WHERE event_id = 'node-meetup-2025'`. -/
def resetEvent (db : Db) : Db :=
  { db with events := db.events.map (fun e =>
      if e.event_id = EVENT_ID then
        { e with available_seats := (e.total_seats : Int), version := 0 }
      else e) }

/-- Statement `DELETE FROM reservations`. -/
def deleteReservations (db : Db) : Db :=
  { db with reservations := [] }

/-- Statement `INSERT INTO reservations (reservation_id, event_id, partner_id, seats, status)
VALUES ($1, $2, $3, $4, 'confirmed')`. -/
def insertReservation (db : Db) (reservationId eventId partnerId : String) (seats : Int) : Db :=
  { db with reservations := db.reservations ++
      [{ reservation_id := reservationId, event_id := eventId, partner_id := partnerId,
         seats := seats, status := "confirmed" }] }

/-- Statement `UPDATE events SET available_seats = available_seats - $1, version = version + 1
WHERE event_id = 'node-meetup-2025'`. -/
def takeSeats (db : Db) (seats : Int) : Db :=
  { db with events := db.events.map (fun e =>
      if e.event_id = EVENT_ID then
        { e with available_seats := e.available_seats - seats, version := e.version + 1 }
      else e) }

/-- Statement `SELECT seats, status FROM reservations WHERE reservation_id = $1`. -/
def selectReservation (db : Db) (reservationId : String) : List ReservationRow :=
  db.reservations.filter (fun r => decide (r.reservation_id = reservationId))

/-- Statement `UPDATE reservations SET status = 'cancelled' WHERE reservation_id = $1`. -/
def markCancelled (db : Db) (reservationId : String) : Db :=
  { db with reservations := db.reservations.map (fun r =>
      if r.reservation_id = reservationId then { r with status := "cancelled" } else r) }

/-- Statement `UPDATE events SET available_seats = available_seats + $1, version = version + 1
WHERE event_id = 'node-meetup-2025'`. -/
def returnSeats (db : Db) (seats : Int) : Db :=
  { db with events := db.events.map (fun e =>
      if e.event_id = EVENT_ID then
        { e with available_seats := e.available_seats + seats, version := e.version + 1 }
      else e) }

/-- Statement `SELECT COUNT(*) FROM reservations WHERE event_id = 'node-meetup-2025'
AND status = 'confirmed'`. -/
def countConfirmed (db : Db) : Nat :=
  (db.reservations.filter
    (fun r => decide (r.event_id = EVENT_ID) && decide (r.status = "confirmed"))).length

/-! ## The handlers -/

/-- The statements a handler sends to the store. -/
inductive Sql where
  | begin
  | commit
  | rollback
  | resetEvent
  | deleteReservations
  | selectEvent
  | selectEventForUpdate
  | insertReservation
  | takeSeats
  | selectReservation
  | markCancelled
  | returnSeats
  | countConfirmed
deriving DecidableEq, Repr

/-- What a handler leaves behind: the store, the response it sent and the
statements it sent to the store, in order. -/
structure Outcome where
  db : Db
  response : Response
  queries : List Sql
deriving DecidableEq, Repr

/-- The `catch` response of `POST /events/bootstrap`. -/
def bootstrapFailed : Response := ⟨500, .error "Failed to initialize event"⟩

/-- The `catch` response of `POST /reservations/`. -/
def createFailed : Response := ⟨500, .error "Failed to create reservation"⟩

/-- The `catch` response of `DELETE /reservations/:reservationId`. -/
def cancelFailed : Response := ⟨500, .error "Failed to cancel reservation"⟩

/-- The `catch` response of `GET /reservations/`. -/
def summaryFailed : Response := ⟨500, .error "Failed to get event summary"⟩

/-- Source: `POST /events/bootstrap`. -/
def bootstrap (db : Db) : Outcome :=
  let db1 := resetEvent db
  let db2 := deleteReservations db1
  let eventResult := selectEvent db2
  { db := db2,
    response := ⟨201, .initialized eventResult.head?⟩,
    queries := [.begin, .resetEvent, .deleteReservations, .selectEvent, .commit] }

/-- Source: `POST /reservations/`; `generated` is the value of
`generateReservationId()` on this call.  The last branch of the outer `match` is
never taken: a missing field is falsy and is answered by the first test.  When
the store refuses the `seats` parameter of the `INSERT`, the statement throws and
the `catch` block rolls back and answers `createFailed`. -/
def createReservation (db : Db) (partnerId : Option String) (seats : Option ℚ)
    (generated : String) : Outcome :=
  if notPartnerId partnerId || notSeats seats then
    ⟨db, ⟨400, .error "Missing required fields: partnerId and seats"⟩, []⟩
  else
    match partnerId, seats with
    | some p, some q =>
      if !validateSeatCount q then
        ⟨db, ⟨400, .error "Seats must be between 1 and 10"⟩, []⟩
      else
        match selectEvent db with
        | [] =>
          ⟨db, ⟨500, .error "Event not found"⟩, [.begin, .selectEventForUpdate, .rollback]⟩
        | row :: _ =>
          if (row.available_seats : ℚ) < q then
            ⟨db, ⟨409, .error "Not enough seats left"⟩,
              [.begin, .selectEventForUpdate, .rollback]⟩
          else
            match seatsColumn q with
            | none =>
              ⟨db, createFailed,
                [.begin, .selectEventForUpdate, .insertReservation, .rollback]⟩
            | some n =>
              let db1 := insertReservation db generated EVENT_ID p n
              let db2 := takeSeats db1 n
              ⟨db2, ⟨201, .reservation generated q "confirmed"⟩,
                [.begin, .selectEventForUpdate, .insertReservation, .takeSeats, .commit]⟩
    | _, _ => ⟨db, ⟨400, .error "Missing required fields: partnerId and seats"⟩, []⟩

/-- Source: `DELETE /reservations/:reservationId`. -/
def cancelReservation (db : Db) (reservationId : String) : Outcome :=
  match selectReservation db reservationId with
  | [] =>
    ⟨db, ⟨404, .error "Reservation not found"⟩, [.begin, .selectReservation, .rollback]⟩
  | row :: _ =>
    if row.status = "cancelled" then
      ⟨db, ⟨404, .error "Reservation already cancelled"⟩,
        [.begin, .selectReservation, .rollback]⟩
    else
      let db1 := markCancelled db reservationId
      let db2 := returnSeats db1 row.seats
      ⟨db2, ⟨204, .empty⟩,
        [.begin, .selectReservation, .markCancelled, .returnSeats, .commit]⟩

/-- Source: `GET /reservations/`; it writes nothing. -/
def getSummary (db : Db) : Response :=
  match selectEvent db with
  | [] => ⟨500, .error "Event not found"⟩
  | event :: _ =>
    ⟨200, .summary event.event_id event.name event.total_seats event.available_seats
      (countConfirmed db) event.version⟩

/-! ## Sequential executions -/

/-- One call of a mutating operation, with its inputs. -/
inductive Call where
  | bootstrap
  | create (partnerId : Option String) (seats : Option ℚ) (generated : String)
  | cancel (reservationId : String)
deriving DecidableEq, Repr

/-- Execute one call. -/
def step (db : Db) : Call → Outcome
  | .bootstrap => bootstrap db
  | .create partnerId seats generated => createReservation db partnerId seats generated
  | .cancel reservationId => cancelReservation db reservationId

/-- Execute calls one after the other; the store left behind. -/
def run (db : Db) : List Call → Db
  | [] => db
  | c :: cs => run (step db c).db cs

/-- Execute calls one after the other; the responses, in order. -/
def responses (db : Db) : List Call → List Response
  | [] => []
  | c :: cs => (step db c).response :: responses (step db c).db cs

/-- The inventory row of the event: the first row `selectEvent` returns. -/
def theEvent (db : Db) : Option EventRow := (selectEvent db).head?

/-- The reservation an id names: the first row `selectReservation` returns. -/
def theReservation (db : Db) (reservationId : String) : Option ReservationRow :=
  (selectReservation db reservationId).head?

/-- Sum of `seats` over the reservations with status `confirmed`. -/
def confirmedSeats (rows : List ReservationRow) : Int :=
  ((rows.filter (fun r => decide (r.status = "confirmed"))).map (fun r => r.seats)).sum

/-- The ids in the ledger. -/
def ledgerIds (db : Db) : List String := db.reservations.map (fun r => r.reservation_id)

/-- Every id generated along the execution differs from every id in the ledger
at the moment it is generated.  `createReservation` calls the generator exactly
on the path that answers 201. -/
def freshIds : Db → List Call → Bool
  | _, [] => true
  | db, c :: cs =>
    (match c with
      | .create partnerId seats generated =>
          decide ((createReservation db partnerId seats generated).response.status = 201 →
            generated ∉ ledgerIds db)
      | _ => true) && freshIds (step db c).db cs

/-- The row update of `markCancelled`, as a function of the row. -/
def cancelRow (rid : String) (r : ReservationRow) : ReservationRow :=
  if r.reservation_id = rid then { r with status := "cancelled" } else r

/-- Every row of the ledger is `confirmed` or `cancelled`. -/
def StatusesKnown (db : Db) : Prop :=
  ∀ r ∈ db.reservations, r.status = "confirmed" ∨ r.status = "cancelled"

/-- Seat conservation for the inventory row of the event. -/
def Conserved (db : Db) : Prop :=
  ∀ e, theEvent db = some e →
    e.available_seats + confirmedSeats db.reservations = (e.total_seats : Int)

/-- No oversell: the free seats are not negative and, together with the seats
of the confirmed reservations, do not exceed the capacity. -/
def NotOversold (db : Db) : Prop :=
  ∀ e, theEvent db = some e →
    0 ≤ e.available_seats ∧
      e.available_seats + confirmedSeats db.reservations ≤ (e.total_seats : Int)

/-! ## Example stores -/

/-- A store with one event of capacity 10 and a stale ledger. -/
def db0 : Db :=
  { events := [⟨"node-meetup-2025", "Node.js Meet-up", 10, 4, 17⟩],
    reservations := [⟨"old-1", "node-meetup-2025", "p0", 6, "confirmed"⟩] }

/-- The store after `Bootstrap` on `db0`. -/
def db1 : Db :=
  { events := [⟨"node-meetup-2025", "Node.js Meet-up", 10, 10, 0⟩],
    reservations := [] }

/-- The store after a 3-seat reservation `r1` by `p1` on `db1`. -/
def db2 : Db :=
  { events := [⟨"node-meetup-2025", "Node.js Meet-up", 10, 7, 1⟩],
    reservations := [⟨"r1", "node-meetup-2025", "p1", 3, "confirmed"⟩] }

/-- The store after cancelling `r1` on `db2`. -/
def db3 : Db :=
  { events := [⟨"node-meetup-2025", "Node.js Meet-up", 10, 10, 2⟩],
    reservations := [⟨"r1", "node-meetup-2025", "p1", 3, "cancelled"⟩] }

/-- The store after two 3- and 5-seat reservations on `db1` that were both given
the id `r1`. -/
def dbTwin : Db :=
  { events := [⟨"node-meetup-2025", "Node.js Meet-up", 10, 2, 2⟩],
    reservations := [⟨"r1", "node-meetup-2025", "p1", 3, "confirmed"⟩,
                     ⟨"r1", "node-meetup-2025", "p2", 5, "confirmed"⟩] }

/-! ## Interleaved cancellations

`DELETE /reservations/:reservationId` awaits each of its statements, so two
requests served by one process interleave statement by statement.  The store
runs each transaction at its default isolation level, READ COMMITTED: a statement
sees what is committed when it starts, the two `UPDATE`s of a transaction take a
row lock each (on the reservation rows, then on the event row) that is held
until `COMMIT`, and their writes become visible to other transactions at
`COMMIT`.  The `SELECT` of this handler carries no `FOR UPDATE` and takes no
lock. -/

/-- Where a cancellation handler stands between two awaited statements. -/
inductive CancelPc where
  | start
  | selected (seats : Int)
  | marked (seats : Int)
  | returned (seats : Int)
  | done (response : Response)
deriving DecidableEq, Repr

/-- A cancellation request in flight. -/
structure CancelSession where
  reservationId : String
  pc : CancelPc
deriving DecidableEq, Repr

/-- The committed store and the requests in flight. -/
structure System where
  db : Db
  sessions : List CancelSession
deriving DecidableEq, Repr

/-- The session holds the row lock its `UPDATE reservations` took. -/
def holdsReservationLock (reservationId : String) (s : CancelSession) : Bool :=
  decide (s.reservationId = reservationId) &&
    (match s.pc with
      | .marked _ => true
      | .returned _ => true
      | _ => false)

/-- The session holds the row lock its `UPDATE events` took. -/
def holdsEventLock (s : CancelSession) : Bool :=
  match s.pc with
  | .returned _ => true
  | _ => false

/-- The next awaited statement of one cancellation handler, the other sessions
being `others`.  A statement that waits for a row lock leaves everything as it is. -/
def cancelStep (db : Db) (others : List CancelSession) (s : CancelSession) :
    Db × CancelSession :=
  match s.pc with
  | .start =>
    match selectReservation db s.reservationId with
    | [] => (db, { s with pc := .done ⟨404, .error "Reservation not found"⟩ })
    | row :: _ =>
      if row.status = "cancelled" then
        (db, { s with pc := .done ⟨404, .error "Reservation already cancelled"⟩ })
      else
        (db, { s with pc := .selected row.seats })
  | .selected seats =>
    if others.any (holdsReservationLock s.reservationId) then (db, s)
    else (db, { s with pc := .marked seats })
  | .marked seats =>
    if others.any holdsEventLock then (db, s)
    else (db, { s with pc := .returned seats })
  | .returned seats =>
    (returnSeats (markCancelled db s.reservationId) seats,
      { s with pc := .done ⟨204, .empty⟩ })
  | .done _ => (db, s)

/-- Let session number `i` run its next statement. -/
def systemStep (sys : System) (i : Nat) : System :=
  match sys.sessions[i]? with
  | none => sys
  | some s =>
    let r := cancelStep sys.db (sys.sessions.eraseIdx i) s
    { db := r.1, sessions := sys.sessions.set i r.2 }

/-- Run a schedule: the numbers of the sessions that move, in order. -/
def runSchedule (sys : System) : List Nat → System
  | [] => sys
  | i :: rest => runSchedule (systemStep sys i) rest

/-- Two requests to cancel the confirmed 3-seat reservation `r1` of `db2`. -/
def twoCancels : System :=
  { db := db2, sessions := [⟨"r1", .start⟩, ⟨"r1", .start⟩] }

/-! ## Statements and the inventory row -/

theorem selectEvent_map (f : EventRow → EventRow) (hf : ∀ e, (f e).event_id = e.event_id)
    (l : List EventRow) :
    (l.map (fun e => if e.event_id = EVENT_ID then f e else e)).filter
        (fun e => decide (e.event_id = EVENT_ID))
      = (l.filter (fun e => decide (e.event_id = EVENT_ID))).map f := by
  induction l with
  | nil => rfl
  | cons a t ih =>
    by_cases h : a.event_id = EVENT_ID
    · simp only [List.map_cons, if_pos h]
      rw [List.filter_cons_of_pos (by simp [hf, h]), List.filter_cons_of_pos (by simp [h]),
        List.map_cons, ih]
    · simp only [List.map_cons, if_neg h]
      rw [List.filter_cons_of_neg (by simp [h]), List.filter_cons_of_neg (by simp [h]), ih]

theorem theEvent_resetEvent (db : Db) :
    theEvent (resetEvent db) = (theEvent db).map
      (fun e => { e with available_seats := (e.total_seats : Int), version := 0 }) := by
  unfold theEvent selectEvent resetEvent
  simp only []
  rw [selectEvent_map (fun e => { e with available_seats := (e.total_seats : Int), version := 0 }) (fun _ => rfl), List.head?_map]

theorem theEvent_takeSeats (db : Db) (n : Int) :
    theEvent (takeSeats db n) = (theEvent db).map
      (fun e => { e with available_seats := e.available_seats - n, version := e.version + 1 }) := by
  unfold theEvent selectEvent takeSeats
  simp only []
  rw [selectEvent_map (fun e => { e with available_seats := e.available_seats - n, version := e.version + 1 }) (fun _ => rfl), List.head?_map]

theorem theEvent_returnSeats (db : Db) (n : Int) :
    theEvent (returnSeats db n) = (theEvent db).map
      (fun e => { e with available_seats := e.available_seats + n, version := e.version + 1 }) := by
  unfold theEvent selectEvent returnSeats
  simp only []
  rw [selectEvent_map (fun e => { e with available_seats := e.available_seats + n, version := e.version + 1 }) (fun _ => rfl), List.head?_map]

theorem theEvent_congr (db db' : Db) (h : db'.events = db.events) :
    theEvent db' = theEvent db := by
  unfold theEvent selectEvent
  rw [h]

theorem selectEvent_of_theEvent (db : Db) (e : EventRow) (h : theEvent db = some e) :
    ∃ t, selectEvent db = e :: t := by
  unfold theEvent at h
  cases hs : selectEvent db with
  | nil => rw [hs] at h; cases h
  | cons a t =>
    rw [hs] at h
    simp only [List.head?_cons, Option.some.injEq] at h
    exact ⟨t, by rw [h]⟩

/-! ## CreateReservation -/

theorem seatsColumn_intCast (n : Int) : seatsColumn (n : ℚ) = some n := by
  simp [seatsColumn]

theorem eq_intCast_of_seatsColumn (q : ℚ) (n : Int) (h : seatsColumn q = some n) :
    q = (n : ℚ) := by
  unfold seatsColumn at h
  by_cases hd : q.den = 1
  · rw [if_pos hd] at h
    simp only [Option.some.injEq] at h
    rw [← h]
    exact (Rat.coe_int_num_of_den_eq_one hd).symm
  · rw [if_neg hd] at h
    cases h

theorem createReservation_accept (db : Db) (partnerId : String) (seats : Int)
    (generated : String) (e : EventRow)
    (hev : theEvent db = some e) (hp : partnerId ≠ "") (h1 : 1 ≤ seats) (h10 : seats ≤ 10)
    (ha : seats ≤ e.available_seats) :
    createReservation db (some partnerId) (some (seats : ℚ)) generated
      = ⟨takeSeats (insertReservation db generated EVENT_ID partnerId seats) seats,
          ⟨201, .reservation generated (seats : ℚ) "confirmed"⟩,
          [.begin, .selectEventForUpdate, .insertReservation, .takeSeats, .commit]⟩ := by
  obtain ⟨t, ht⟩ := selectEvent_of_theEvent db e hev
  have hs0 : (seats : ℚ) ≠ 0 := by
    have : seats ≠ 0 := by omega
    exact_mod_cast this
  have hpos : (0 : ℚ) < (seats : ℚ) := by
    have : 0 < seats := by omega
    exact_mod_cast this
  have hle : (seats : ℚ) ≤ 10 := by exact_mod_cast h10
  have hna : ¬ (e.available_seats : ℚ) < (seats : ℚ) := by
    have : ¬ e.available_seats < seats := by omega
    exact_mod_cast this
  unfold createReservation
  simp [notPartnerId, notSeats, validateSeatCount, hp, hs0, hpos, hle, ht, hna,
    seatsColumn_intCast]

theorem createReservation_refuse (db : Db) (partnerId : String) (seats : Int)
    (generated : String) (e : EventRow)
    (hev : theEvent db = some e) (hp : partnerId ≠ "") (h1 : 1 ≤ seats) (h10 : seats ≤ 10)
    (ha : e.available_seats < seats) :
    createReservation db (some partnerId) (some (seats : ℚ)) generated
      = ⟨db, ⟨409, .error "Not enough seats left"⟩,
          [.begin, .selectEventForUpdate, .rollback]⟩ := by
  obtain ⟨t, ht⟩ := selectEvent_of_theEvent db e hev
  have hs0 : (seats : ℚ) ≠ 0 := by
    have : seats ≠ 0 := by omega
    exact_mod_cast this
  have hpos : (0 : ℚ) < (seats : ℚ) := by
    have : 0 < seats := by omega
    exact_mod_cast this
  have hle : (seats : ℚ) ≤ 10 := by exact_mod_cast h10
  have hlt : (e.available_seats : ℚ) < (seats : ℚ) := by exact_mod_cast ha
  unfold createReservation
  simp [notPartnerId, notSeats, validateSeatCount, hp, hs0, hpos, hle, ht, hlt]

/-- What the two validation tests do refuse: a missing or empty partnerId, a
missing seats, and a seats that is not above 0 or is above 10. -/
theorem createReservation_reject_input (db : Db) (partnerId : Option String)
    (seats : Option ℚ) (generated : String)
    (h : partnerId = none ∨ partnerId = some "" ∨ seats = none ∨
      (∃ n : Int, seats = some (n : ℚ) ∧ (n < 1 ∨ 10 < n)) ∨
      ∃ q : ℚ, seats = some q ∧ (q ≤ 0 ∨ 10 < q)) :
    (createReservation db partnerId seats generated).response.status = 400 ∧
    (createReservation db partnerId seats generated).queries = [] ∧
    (createReservation db partnerId seats generated).db = db := by
  have key : ∀ q : ℚ, (q ≤ 0 ∨ 10 < q) →
      (createReservation db partnerId (some q) generated).response.status = 400 ∧
      (createReservation db partnerId (some q) generated).queries = [] ∧
      (createReservation db partnerId (some q) generated).db = db := by
    intro q hq
    unfold createReservation
    by_cases h0 : notPartnerId partnerId || notSeats (some q)
    · simp [h0]
    · simp only [h0]
      cases partnerId with
      | none => simp
      | some p =>
        have hv : validateSeatCount q = false := by
          unfold validateSeatCount
          rcases hq with hq | hq
          · have : ¬ q > 0 := not_lt.mpr hq
            simp [this]
          · have : ¬ q ≤ 10 := not_le.mpr hq
            simp [this]
        simp [hv]
  rcases h with h | h | h | ⟨n, h, hn⟩ | ⟨q, h, hq⟩
  · subst h; simp [createReservation, notPartnerId]
  · subst h; simp [createReservation, notPartnerId]
  · subst h; simp [createReservation, notSeats]
  · subst h
    apply key
    rcases hn with hn | hn
    · left
      have : n ≤ 0 := by omega
      exact_mod_cast this
    · right
      exact_mod_cast hn
  · subst h
    exact key q hq

/-- C3: when the event exists and the request has a non-empty partnerId and
1 <= seats <= 10 with seats <= availableSeats, CreateReservation answers 201 with
(reservationId, seats, confirmed); afterwards the inventory row is the old one with
availableSeats lowered by seats and version raised by 1 (totalSeats, name and id
untouched), and the ledger is the old ledger followed by exactly one new row holding
the returned id, the given partnerId, the given seats and status confirmed. -/
theorem createReservation_success (db : Db) (partnerId : String) (seats : Int)
    (generated : String) (e : EventRow)
    (hev : theEvent db = some e) (hp : partnerId ≠ "") (h1 : 1 ≤ seats) (h10 : seats ≤ 10)
    (ha : seats ≤ e.available_seats) :
    (createReservation db (some partnerId) (some (seats : ℚ)) generated).response
        = ⟨201, .reservation generated (seats : ℚ) "confirmed"⟩ ∧
    theEvent (createReservation db (some partnerId) (some (seats : ℚ)) generated).db
        = some { e with available_seats := e.available_seats - seats,
                        version := e.version + 1 } ∧
    (createReservation db (some partnerId) (some (seats : ℚ)) generated).db.reservations
        = db.reservations ++ [⟨generated, EVENT_ID, partnerId, seats, "confirmed"⟩] := by
  rw [createReservation_accept db partnerId seats generated e hev hp h1 h10 ha]
  refine ⟨rfl, ?_, rfl⟩
  simp only []
  rw [theEvent_takeSeats, theEvent_congr db
    (insertReservation db generated EVENT_ID partnerId seats) rfl, hev]
  rfl

theorem createReservation_success_witness :
    theEvent db1 = some ⟨"node-meetup-2025", "Node.js Meet-up", 10, 10, 0⟩ ∧
    (createReservation db1 (some "p1") (some ((3 : Int) : ℚ)) "r1").response
        = ⟨201, .reservation "r1" ((3 : Int) : ℚ) "confirmed"⟩ ∧
    theEvent (createReservation db1 (some "p1") (some ((3 : Int) : ℚ)) "r1").db
        = some ⟨"node-meetup-2025", "Node.js Meet-up", 10, 10 - 3, 0 + 1⟩ ∧
    (createReservation db1 (some "p1") (some ((3 : Int) : ℚ)) "r1").db.reservations
        = db1.reservations ++ [⟨"r1", EVENT_ID, "p1", 3, "confirmed"⟩] :=
  ⟨by decide,
   createReservation_success db1 "p1" 3 "r1" ⟨"node-meetup-2025", "Node.js Meet-up", 10, 10, 0⟩
     (by decide) (by decide) (by decide) (by decide) (by decide)⟩

/-- C4: when the event exists and a valid request (non-empty partnerId,
1 <= seats <= 10) asks for more seats than availableSeats, CreateReservation answers
409 "Not enough seats left", rolls back, and leaves the whole store (inventory row,
version, every reservation row) as it was. -/
theorem createReservation_insufficient (db : Db) (partnerId : String) (seats : Int)
    (generated : String) (e : EventRow)
    (hev : theEvent db = some e) (hp : partnerId ≠ "") (h1 : 1 ≤ seats) (h10 : seats ≤ 10)
    (ha : e.available_seats < seats) :
    createReservation db (some partnerId) (some (seats : ℚ)) generated
      = ⟨db, ⟨409, .error "Not enough seats left"⟩,
          [.begin, .selectEventForUpdate, .rollback]⟩ := by
  obtain ⟨t, ht⟩ := selectEvent_of_theEvent db e hev
  have hs0 : (seats : ℚ) ≠ 0 := by
    have : seats ≠ 0 := by omega
    exact_mod_cast this
  have hpos : (0 : ℚ) < (seats : ℚ) := by
    have : 0 < seats := by omega
    exact_mod_cast this
  have hle : (seats : ℚ) ≤ 10 := by exact_mod_cast h10
  have hlt : (e.available_seats : ℚ) < (seats : ℚ) := by exact_mod_cast ha
  unfold createReservation
  simp [notPartnerId, notSeats, validateSeatCount, hp, hs0, hpos, hle, ht, hlt]

theorem createReservation_insufficient_witness :
    run db0 [.bootstrap, .create (some "p1") (some 3) "r1"] = db2 ∧
    theEvent db2 = some ⟨"node-meetup-2025", "Node.js Meet-up", 10, 7, 1⟩ ∧
    createReservation db2 (some "p2") (some ((8 : Int) : ℚ)) "r2"
      = ⟨db2, ⟨409, .error "Not enough seats left"⟩,
          [.begin, .selectEventForUpdate, .rollback]⟩ :=
  ⟨by decide, by decide,
   createReservation_insufficient db2 "p2" 8 "r2" ⟨"node-meetup-2025", "Node.js Meet-up", 10, 7, 1⟩
     (by decide) (by decide) (by decide) (by decide) (by decide)⟩

/-- C7 on the code: the request `partnerId = "p1"`, `seats = 1/2` has a seats below 1,
yet `validateSeatCount` lets it through; whatever the store, the handler answers no
400 and sends statements to the store, starting a transaction and locking the
inventory row.  On `db2` the store refuses the half seat at the `INSERT`, and the
answer is 500 after a rollback.  The integer requests 0 and 11 are answered 400
before any statement. -/
theorem createReservation_half_seat (db : Db) (generated : String) :
    (1 / 2 : ℚ) < 1 ∧ validateSeatCount (1 / 2) = true ∧
    (createReservation db (some "p1") (some (1 / 2)) generated).response.status ≠ 400 ∧
    (createReservation db (some "p1") (some (1 / 2)) generated).queries.take 2
      = [.begin, .selectEventForUpdate] ∧
    createReservation db2 (some "p1") (some (1 / 2)) generated
      = ⟨db2, createFailed,
          [.begin, .selectEventForUpdate, .insertReservation, .rollback]⟩ ∧
    createReservation db (some "p1") (some 0) generated
      = ⟨db, ⟨400, .error "Missing required fields: partnerId and seats"⟩, []⟩ ∧
    createReservation db (some "p1") (some 11) generated
      = ⟨db, ⟨400, .error "Seats must be between 1 and 10"⟩, []⟩ := by
  have hv : validateSeatCount (1 / 2) = true := by
    unfold validateSeatCount
    norm_num
  have hcol : seatsColumn (1 / 2) = none := by
    unfold seatsColumn
    norm_num
  have hp : notPartnerId (some "p1") = false := by decide
  have hs : notSeats (some (1 / 2)) = false := by
    unfold notSeats
    norm_num
  have hgen : (createReservation db (some "p1") (some (1 / 2)) generated).response.status ≠ 400 ∧
      (createReservation db (some "p1") (some (1 / 2)) generated).queries.take 2
        = [.begin, .selectEventForUpdate] := by
    unfold createReservation
    simp only [hp, hs, hv, hcol, Bool.or_self, Bool.not_true, Bool.false_eq_true, if_false]
    cases selectEvent db with
    | nil => simp
    | cons row t =>
      by_cases ha : (row.available_seats : ℚ) < 1 / 2
      · simp only [ha, if_true]
        simp
      · simp only [ha, if_false]
        simp [createFailed]
  have hdb2 : createReservation db2 (some "p1") (some (1 / 2)) generated
      = ⟨db2, createFailed,
          [.begin, .selectEventForUpdate, .insertReservation, .rollback]⟩ := by
    have hsel : selectEvent db2 = [⟨"node-meetup-2025", "Node.js Meet-up", 10, 7, 1⟩] := by
      decide
    unfold createReservation
    simp only [hp, hs, hv, hcol, hsel, Bool.or_self, Bool.not_true, Bool.false_eq_true, if_false]
    norm_num
  refine ⟨by norm_num, hv, hgen.1, hgen.2, hdb2, ?_, ?_⟩
  · simp [createReservation, notPartnerId, notSeats]
  · have hv11 : validateSeatCount 11 = false := by decide
    have hs11 : notSeats (some 11) = false := by decide
    unfold createReservation
    simp [hp, hs11, hv11]

/-! ## Bootstrap -/

theorem resetEvent_resetEvent (db : Db) : resetEvent (resetEvent db) = resetEvent db := by
  unfold resetEvent
  simp only [List.map_map]
  congr 1
  apply List.map_congr_left
  intro a _
  by_cases h : a.event_id = EVENT_ID <;> simp [h]

theorem bootstrap_bootstrap (db : Db) : bootstrap (bootstrap db).db = bootstrap db := by
  have h : resetEvent (deleteReservations (resetEvent db)) = deleteReservations (resetEvent db) := by
    have h2 := resetEvent_resetEvent db
    unfold resetEvent deleteReservations at *
    simp only [Db.mk.injEq] at h2 ⊢
    exact ⟨h2.1, trivial⟩
  unfold bootstrap
  simp only []
  rw [h]
  rfl

/-- C8: when the event exists, Bootstrap leaves the inventory row with
availableSeats = totalSeats and version = 0 (eventId, name and totalSeats untouched),
leaves no reservation rows, and answers 201 with that row; Bootstrap applied to its
own result returns the same store and the same snapshot; and a GetSummary that follows
reports availableSeats = totalSeats, version = 0, reservationCount = 0. -/
theorem bootstrap_reset (db : Db) (e : EventRow) (hev : theEvent db = some e) :
    theEvent (bootstrap db).db
        = some { e with available_seats := (e.total_seats : Int), version := 0 } ∧
    (bootstrap db).db.reservations = [] ∧
    (bootstrap db).response
        = ⟨201, .initialized
            (some { e with available_seats := (e.total_seats : Int), version := 0 })⟩ ∧
    bootstrap (bootstrap db).db = bootstrap db ∧
    getSummary (bootstrap db).db
        = ⟨200, .summary e.event_id e.name e.total_seats (e.total_seats : Int) 0 0⟩ := by
  have hE : theEvent (deleteReservations (resetEvent db))
      = some { e with available_seats := (e.total_seats : Int), version := 0 } := by
    rw [theEvent_congr (resetEvent db) (deleteReservations (resetEvent db)) rfl,
      theEvent_resetEvent, hev]
    rfl
  refine ⟨hE, rfl, ?_, bootstrap_bootstrap db, ?_⟩
  · unfold bootstrap
    simp only []
    unfold theEvent at hE
    rw [hE]
  · obtain ⟨t, ht⟩ := selectEvent_of_theEvent _ _ hE
    unfold bootstrap getSummary
    simp only []
    rw [ht]
    rfl

theorem bootstrap_reset_witness :
    theEvent db0 = some ⟨"node-meetup-2025", "Node.js Meet-up", 10, 4, 17⟩ ∧
    (bootstrap db0).db = db1 ∧
    getSummary (bootstrap db0).db
        = ⟨200, .summary "node-meetup-2025" "Node.js Meet-up" 10 10 0 0⟩ ∧
    bootstrap (bootstrap db0).db = bootstrap db0 :=
  ⟨by decide, by decide,
   (bootstrap_reset db0 ⟨"node-meetup-2025", "Node.js Meet-up", 10, 4, 17⟩ (by decide)).2.2.2.2,
   (bootstrap_reset db0 ⟨"node-meetup-2025", "Node.js Meet-up", 10, 4, 17⟩ (by decide)).2.2.2.1⟩

/-! ## CancelReservation -/

theorem selectReservation_markCancelled (db : Db) (rid : String) :
    selectReservation (markCancelled db rid) rid
      = (selectReservation db rid).map (fun r => { r with status := "cancelled" }) := by
  unfold selectReservation markCancelled
  simp only []
  induction db.reservations with
  | nil => rfl
  | cons a t ih =>
    by_cases h : a.reservation_id = rid
    · simp only [List.map_cons, if_pos h]
      rw [List.filter_cons_of_pos (by simp [h]), List.filter_cons_of_pos (by simp [h]),
        List.map_cons, ih]
    · simp only [List.map_cons, if_neg h]
      rw [List.filter_cons_of_neg (by simp [h]), List.filter_cons_of_neg (by simp [h]), ih]

theorem selectReservation_of_theReservation (db : Db) (rid : String) (r : ReservationRow)
    (h : theReservation db rid = some r) : ∃ t, selectReservation db rid = r :: t := by
  unfold theReservation at h
  cases hs : selectReservation db rid with
  | nil => rw [hs] at h; cases h
  | cons a t =>
    rw [hs] at h
    simp only [List.head?_cons, Option.some.injEq] at h
    exact ⟨t, by rw [h]⟩

theorem mem_of_theReservation (db : Db) (rid : String) (r : ReservationRow)
    (h : theReservation db rid = some r) : r ∈ db.reservations := by
  obtain ⟨t, ht⟩ := selectReservation_of_theReservation db rid r h
  have hm : r ∈ selectReservation db rid := by rw [ht]; exact List.mem_cons_self r t
  unfold selectReservation at hm
  exact (List.mem_filter.mp hm).1

theorem cancelReservation_accept (db : Db) (rid : String) (r : ReservationRow)
    (h : theReservation db rid = some r) (hs : r.status ≠ "cancelled") :
    cancelReservation db rid
      = ⟨returnSeats (markCancelled db rid) r.seats, ⟨204, .empty⟩,
          [.begin, .selectReservation, .markCancelled, .returnSeats, .commit]⟩ := by
  obtain ⟨t, ht⟩ := selectReservation_of_theReservation db rid r h
  unfold cancelReservation
  rw [ht]
  simp [hs]

theorem cancelReservation_reject (db : Db) (rid : String) (r : ReservationRow)
    (h : theReservation db rid = some r) (hs : r.status = "cancelled") :
    cancelReservation db rid
      = ⟨db, ⟨404, .error "Reservation already cancelled"⟩,
          [.begin, .selectReservation, .rollback]⟩ := by
  obtain ⟨t, ht⟩ := selectReservation_of_theReservation db rid r h
  unfold cancelReservation
  rw [ht]
  simp [hs]

theorem cancelReservation_unknown (db : Db) (rid : String)
    (h : theReservation db rid = none) :
    cancelReservation db rid
      = ⟨db, ⟨404, .error "Reservation not found"⟩,
          [.begin, .selectReservation, .rollback]⟩ := by
  unfold theReservation at h
  unfold cancelReservation
  cases hs : selectReservation db rid with
  | nil => rfl
  | cons a t => rw [hs] at h; cases h

theorem theReservation_after_accept (db : Db) (rid : String) (r : ReservationRow)
    (h : theReservation db rid = some r) (n : Int) :
    theReservation (returnSeats (markCancelled db rid) n) rid
      = some { r with status := "cancelled" } := by
  obtain ⟨t, ht⟩ := selectReservation_of_theReservation db rid r h
  have h1 : selectReservation (returnSeats (markCancelled db rid) n) rid
      = selectReservation (markCancelled db rid) rid := rfl
  unfold theReservation
  rw [h1, selectReservation_markCancelled, ht]
  rfl

/-- A second cancellation of the same id is refused and writes nothing. -/
theorem cancelReservation_again (db : Db) (rid : String) :
    (cancelReservation (cancelReservation db rid).db rid).db = (cancelReservation db rid).db ∧
    (cancelReservation (cancelReservation db rid).db rid).response.status = 404 := by
  cases h : theReservation db rid with
  | none =>
    rw [cancelReservation_unknown db rid h]
    simp only []
    rw [cancelReservation_unknown db rid h]
    exact ⟨rfl, rfl⟩
  | some r =>
    by_cases hs : r.status = "cancelled"
    · rw [cancelReservation_reject db rid r h hs]
      simp only []
      rw [cancelReservation_reject db rid r h hs]
      exact ⟨rfl, rfl⟩
    · rw [cancelReservation_accept db rid r h hs]
      simp only []
      rw [cancelReservation_reject _ rid _ (theReservation_after_accept db rid r h r.seats) rfl]
      exact ⟨rfl, rfl⟩

theorem run_cancel_refused (db : Db) (rid : String)
    (hdb : (cancelReservation db rid).db = db)
    (hst : (cancelReservation db rid).response.status = 404) (n : Nat) :
    run db (List.replicate n (.cancel rid)) = db ∧
    (responses db (List.replicate n (.cancel rid))).filter
      (fun r => decide (r.status = 204)) = [] := by
  induction n with
  | zero => exact ⟨rfl, rfl⟩
  | succ k ih =>
    simp only [List.replicate_succ, run, responses, step]
    rw [hdb]
    refine ⟨ih.1, ?_⟩
    rw [List.filter_cons_of_neg (by simp [hst])]
    exact ih.2

/-- C5: when the reservation an id names has status cancelled, CancelReservation
answers 404 "Reservation already cancelled", rolls back and leaves the whole store
as it was; and in any run of CancelReservation calls on one id at most one call
answers 204, the store at the end being either the initial store or the store
right after a single cancellation, so that the seats are returned at most once. -/
theorem cancelReservation_no_double_refund (db : Db) (reservationId : String) :
    (∀ r, theReservation db reservationId = some r → r.status = "cancelled" →
      cancelReservation db reservationId
        = ⟨db, ⟨404, .error "Reservation already cancelled"⟩,
            [.begin, .selectReservation, .rollback]⟩) ∧
    (∀ n : Nat,
      ((responses db (List.replicate n (.cancel reservationId))).filter
        (fun r => decide (r.status = 204))).length ≤ 1 ∧
      (run db (List.replicate n (.cancel reservationId)) = db ∨
       run db (List.replicate n (.cancel reservationId))
         = (cancelReservation db reservationId).db)) := by
  refine ⟨fun r h hs => cancelReservation_reject db reservationId r h hs, ?_⟩
  intro n
  cases n with
  | zero => exact ⟨Nat.zero_le _, Or.inl rfl⟩
  | succ k =>
    obtain ⟨h1, h2⟩ := cancelReservation_again db reservationId
    obtain ⟨hrun, hresp⟩ := run_cancel_refused _ reservationId h1 h2 k
    simp only [List.replicate_succ, run, responses, step]
    rw [hrun]
    refine ⟨?_, Or.inr rfl⟩
    by_cases hc : (cancelReservation db reservationId).response.status = 204
    · rw [List.filter_cons_of_pos (by simp [hc]), hresp]
      simp
    · rw [List.filter_cons_of_neg (by simp [hc]), hresp]
      simp

theorem cancelReservation_no_double_refund_witness :
    theReservation db3 "r1" = some ⟨"r1", "node-meetup-2025", "p1", 3, "cancelled"⟩ ∧
    cancelReservation db3 "r1"
      = ⟨db3, ⟨404, .error "Reservation already cancelled"⟩,
          [.begin, .selectReservation, .rollback]⟩ ∧
    run db2 (List.replicate 3 (.cancel "r1")) = db3 ∧
    ((responses db2 (List.replicate 3 (.cancel "r1"))).filter
        (fun r => decide (r.status = 204))).length ≤ 1 :=
  ⟨by decide,
   (cancelReservation_no_double_refund db3 "r1").1
     ⟨"r1", "node-meetup-2025", "p1", 3, "cancelled"⟩ (by decide) (by decide),
   by decide,
   ((cancelReservation_no_double_refund db2 "r1").2 3).1⟩

/-- C6, as the code has it: when the first row an id names has status confirmed and
k seats, CancelReservation answers 204; afterwards that row has status cancelled with
its id, partnerId and seats untouched, the inventory row is the old one with
availableSeats raised by k and version raised by 1 (totalSeats untouched), the ledger
has the same length, every row with another id is untouched, and every row with the
same id differs from its old self only by holding status cancelled; when the ids of
the ledger are unique, every row other than that reservation is untouched. -/
theorem cancelReservation_success (db : Db) (reservationId : String) (r : ReservationRow)
    (h : theReservation db reservationId = some r) (hs : r.status = "confirmed") :
    (cancelReservation db reservationId).response = ⟨204, .empty⟩ ∧
    theReservation (cancelReservation db reservationId).db reservationId
        = some { r with status := "cancelled" } ∧
    (∀ e, theEvent db = some e →
      theEvent (cancelReservation db reservationId).db
        = some { e with available_seats := e.available_seats + r.seats,
                        version := e.version + 1 }) ∧
    (cancelReservation db reservationId).db.reservations.length = db.reservations.length ∧
    (∀ (i : Nat) (x : ReservationRow), db.reservations[i]? = some x →
      x.reservation_id ≠ reservationId →
      (cancelReservation db reservationId).db.reservations[i]? = some x) ∧
    (∀ (i : Nat) (x : ReservationRow), db.reservations[i]? = some x →
      x.reservation_id = reservationId →
      (cancelReservation db reservationId).db.reservations[i]?
        = some { x with status := "cancelled" }) ∧
    ((ledgerIds db).Nodup →
      ∀ (i : Nat) (x : ReservationRow), db.reservations[i]? = some x → x ≠ r →
        (cancelReservation db reservationId).db.reservations[i]? = some x) := by
  have hne : r.status ≠ "cancelled" := by rw [hs]; decide
  have hmem := mem_of_theReservation db reservationId r h
  have hrid : r.reservation_id = reservationId := by
    obtain ⟨t, ht⟩ := selectReservation_of_theReservation db reservationId r h
    have hm : r ∈ selectReservation db reservationId := by rw [ht]; exact List.mem_cons_self r t
    unfold selectReservation at hm
    simpa using (List.mem_filter.mp hm).2
  rw [cancelReservation_accept db reservationId r h hne]
  have hres : (returnSeats (markCancelled db reservationId) r.seats).reservations
      = db.reservations.map (fun x =>
          if x.reservation_id = reservationId then { x with status := "cancelled" } else x) :=
    rfl
  refine ⟨rfl, theReservation_after_accept db reservationId r h r.seats, ?_, ?_, ?_, ?_, ?_⟩
  · intro e he
    simp only []
    rw [theEvent_returnSeats, theEvent_congr db (markCancelled db reservationId) rfl, he]
    rfl
  · simp only []
    rw [hres, List.length_map]
  · intro i x hx hid
    simp only []
    rw [hres, List.getElem?_map, hx]
    simp [hid]
  · intro i x hx hid
    simp only []
    rw [hres, List.getElem?_map, hx]
    simp [hid]
  · intro hnd i x hx hxr
    have hid : x.reservation_id ≠ reservationId := by
      intro hh
      exact hxr (List.inj_on_of_nodup_map hnd (List.getElem?_mem hx) hmem (by rw [hh, hrid]))
    simp only []
    rw [hres, List.getElem?_map, hx]
    simp [hid]

theorem cancelReservation_success_witness :
    theReservation db2 "r1" = some ⟨"r1", "node-meetup-2025", "p1", 3, "confirmed"⟩ ∧
    (cancelReservation db2 "r1").response = ⟨204, .empty⟩ ∧
    theReservation (cancelReservation db2 "r1").db "r1"
        = some ⟨"r1", "node-meetup-2025", "p1", 3, "cancelled"⟩ ∧
    theEvent (cancelReservation db2 "r1").db
        = some ⟨"node-meetup-2025", "Node.js Meet-up", 10, 7 + 3, 1 + 1⟩ :=
  ⟨by decide,
   (cancelReservation_success db2 "r1" ⟨"r1", "node-meetup-2025", "p1", 3, "confirmed"⟩
     (by decide) (by decide)).1,
   (cancelReservation_success db2 "r1" ⟨"r1", "node-meetup-2025", "p1", 3, "confirmed"⟩
     (by decide) (by decide)).2.1,
   (cancelReservation_success db2 "r1" ⟨"r1", "node-meetup-2025", "p1", 3, "confirmed"⟩
     (by decide) (by decide)).2.2.1 ⟨"node-meetup-2025", "Node.js Meet-up", 10, 7, 1⟩
     (by decide)⟩

/-- C6, as stated, fails: `dbTwin` is reached from a Bootstrap result by two accepted
reservations that were given the same id `r1`; the id names the confirmed 3-seat row,
and cancelling it also turns the 5-seat row of the other partner to cancelled, so not
every other row is unchanged, while only 3 seats are returned. -/
theorem cancelReservation_twin_row_changed :
    run (bootstrap db0).db
        [.create (some "p1") (some 3) "r1", .create (some "p2") (some 5) "r1"] = dbTwin ∧
    theReservation dbTwin "r1" = some ⟨"r1", "node-meetup-2025", "p1", 3, "confirmed"⟩ ∧
    ¬ (∀ (i : Nat) (x : ReservationRow), dbTwin.reservations[i]? = some x →
        x ≠ ⟨"r1", "node-meetup-2025", "p1", 3, "confirmed"⟩ →
        (cancelReservation dbTwin "r1").db.reservations[i]? = some x) ∧
    (cancelReservation dbTwin "r1").db
      = { events := [⟨"node-meetup-2025", "Node.js Meet-up", 10, 5, 3⟩],
          reservations := [⟨"r1", "node-meetup-2025", "p1", 3, "cancelled"⟩,
                           ⟨"r1", "node-meetup-2025", "p2", 5, "cancelled"⟩] } := by
  refine ⟨by decide, by decide, ?_, by decide⟩
  intro h
  have h1 := h 1 ⟨"r1", "node-meetup-2025", "p2", 5, "confirmed"⟩ (by decide) (by decide)
  revert h1
  decide

/-! ## Reachable states -/

theorem confirmedSeats_cons (a : ReservationRow) (t : List ReservationRow) :
    confirmedSeats (a :: t)
      = (if a.status = "confirmed" then a.seats else 0) + confirmedSeats t := by
  unfold confirmedSeats
  by_cases h : a.status = "confirmed"
  · rw [List.filter_cons_of_pos (by simp [h]), if_pos h, List.map_cons, List.sum_cons]
  · rw [List.filter_cons_of_neg (by simp [h]), if_neg h, zero_add]

theorem confirmedSeats_append_confirmed (l : List ReservationRow) (a : ReservationRow)
    (h : a.status = "confirmed") :
    confirmedSeats (l ++ [a]) = confirmedSeats l + a.seats := by
  induction l with
  | nil => simp [confirmedSeats, h]
  | cons b t ih =>
    rw [List.cons_append, confirmedSeats_cons, confirmedSeats_cons, ih]
    ring

theorem confirmedSeats_nonneg (l : List ReservationRow) (hpos : ∀ x ∈ l, 0 ≤ x.seats) :
    0 ≤ confirmedSeats l := by
  induction l with
  | nil => simp [confirmedSeats]
  | cons a t ih =>
    rw [confirmedSeats_cons]
    have ha := hpos a (List.mem_cons_self a t)
    have ht := ih (fun x hx => hpos x (List.mem_cons_of_mem a hx))
    split <;> omega

theorem markCancelled_reservations (db : Db) (rid : String) :
    (markCancelled db rid).reservations = db.reservations.map (cancelRow rid) := rfl

theorem map_cancelRow_of_not_mem (rid : String) (l : List ReservationRow)
    (h : rid ∉ l.map (fun r => r.reservation_id)) : l.map (cancelRow rid) = l := by
  induction l with
  | nil => rfl
  | cons a t ih =>
    simp only [List.map_cons, List.mem_cons, not_or] at h
    have ha : a.reservation_id ≠ rid := fun hh => h.1 hh.symm
    rw [List.map_cons, ih h.2]
    simp [cancelRow, ha]

theorem confirmedSeats_cancel_le_self (rid : String) (l : List ReservationRow)
    (hpos : ∀ x ∈ l, 0 ≤ x.seats) :
    confirmedSeats (l.map (cancelRow rid)) ≤ confirmedSeats l := by
  induction l with
  | nil => exact le_refl _
  | cons a t ih =>
    have ha := hpos a (List.mem_cons_self a t)
    have ht := ih (fun x hx => hpos x (List.mem_cons_of_mem a hx))
    rw [List.map_cons, confirmedSeats_cons, confirmedSeats_cons]
    by_cases hid : a.reservation_id = rid
    · have hc : (cancelRow rid a).status = "cancelled" := by simp [cancelRow, hid]
      have hn : ¬ (cancelRow rid a).status = "confirmed" := by rw [hc]; decide
      rw [if_neg hn]
      split <;> omega
    · have hc : cancelRow rid a = a := by simp [cancelRow, hid]
      rw [hc]
      omega

/-- With unique ids, cancelling removes exactly the seats of the named row. -/
theorem confirmedSeats_cancel_nodup (rid : String) (r : ReservationRow)
    (l : List ReservationRow) (hnd : (l.map (fun r => r.reservation_id)).Nodup)
    (hfind : (l.filter (fun x => decide (x.reservation_id = rid))).head? = some r)
    (hs : r.status = "confirmed") :
    confirmedSeats (l.map (cancelRow rid)) = confirmedSeats l - r.seats := by
  induction l with
  | nil => simp at hfind
  | cons a t ih =>
    simp only [List.map_cons, List.nodup_cons] at hnd
    rw [List.map_cons, confirmedSeats_cons, confirmedSeats_cons]
    by_cases hid : a.reservation_id = rid
    · rw [List.filter_cons_of_pos (by simp [hid])] at hfind
      simp only [List.head?_cons, Option.some.injEq] at hfind
      subst hfind
      have hc : (cancelRow rid a).status = "cancelled" := by simp [cancelRow, hid]
      have hn : ¬ (cancelRow rid a).status = "confirmed" := by rw [hc]; decide
      rw [if_neg hn, if_pos hs, map_cancelRow_of_not_mem rid t (by rw [← hid]; exact hnd.1)]
      ring
    · rw [List.filter_cons_of_neg (by simp [hid])] at hfind
      have hc : cancelRow rid a = a := by simp [cancelRow, hid]
      rw [hc, ih hnd.2 hfind]
      ring

/-- Without unique ids, cancelling removes at least the seats of the named row. -/
theorem confirmedSeats_cancel_le (rid : String) (r : ReservationRow)
    (l : List ReservationRow) (hpos : ∀ x ∈ l, 0 ≤ x.seats)
    (hfind : (l.filter (fun x => decide (x.reservation_id = rid))).head? = some r)
    (hs : r.status = "confirmed") :
    confirmedSeats (l.map (cancelRow rid)) + r.seats ≤ confirmedSeats l := by
  induction l with
  | nil => simp at hfind
  | cons a t ih =>
    have ht : ∀ x ∈ t, 0 ≤ x.seats := fun x hx => hpos x (List.mem_cons_of_mem a hx)
    rw [List.map_cons, confirmedSeats_cons, confirmedSeats_cons]
    by_cases hid : a.reservation_id = rid
    · rw [List.filter_cons_of_pos (by simp [hid])] at hfind
      simp only [List.head?_cons, Option.some.injEq] at hfind
      subst hfind
      have hc : (cancelRow rid a).status = "cancelled" := by simp [cancelRow, hid]
      have hn : ¬ (cancelRow rid a).status = "confirmed" := by rw [hc]; decide
      have hle := confirmedSeats_cancel_le_self rid t ht
      rw [if_neg hn, if_pos hs]
      omega
    · rw [List.filter_cons_of_neg (by simp [hid])] at hfind
      have hc : cancelRow rid a = a := by simp [cancelRow, hid]
      have := ih ht hfind
      rw [hc]
      omega

/-- The two ways `createReservation` can end: nothing written and no id
accepted, or the accepted path, which only a whole number of seats takes. -/
theorem createReservation_cases (db : Db) (partnerId : Option String) (seats : Option ℚ)
    (generated : String) :
    ((createReservation db partnerId seats generated).db = db ∧
      (createReservation db partnerId seats generated).response.status ≠ 201) ∨
    ∃ (p : String) (n : Int) (e : EventRow),
      partnerId = some p ∧ seats = some (n : ℚ) ∧ theEvent db = some e ∧
      1 ≤ n ∧ n ≤ 10 ∧ n ≤ e.available_seats ∧
      createReservation db partnerId seats generated
        = ⟨takeSeats (insertReservation db generated EVENT_ID p n) n,
            ⟨201, .reservation generated (n : ℚ) "confirmed"⟩,
            [.begin, .selectEventForUpdate, .insertReservation, .takeSeats, .commit]⟩ := by
  cases partnerId with
  | none => left; simp [createReservation, notPartnerId]
  | some p =>
    cases seats with
    | none => left; simp [createReservation, notSeats]
    | some q =>
      by_cases hp : p = ""
      · left; simp [createReservation, notPartnerId, hp]
      by_cases hbad : q ≤ 0 ∨ 10 < q
      · left
        obtain ⟨hstatus, _, hdb⟩ := createReservation_reject_input db (some p) (some q) generated
          (Or.inr (Or.inr (Or.inr (Or.inr ⟨q, rfl, hbad⟩))))
        exact ⟨hdb, by rw [hstatus]; decide⟩
      have hpos : 0 < q := by
        by_contra hh
        exact hbad (Or.inl (not_lt.mp hh))
      have hle : q ≤ 10 := by
        by_contra hh
        exact hbad (Or.inr (not_le.mp hh))
      have hq0 : q ≠ 0 := ne_of_gt hpos
      have hv : validateSeatCount q = true := by simp [validateSeatCount, hpos, hle]
      have hnp : notPartnerId (some p) = false := by simp [notPartnerId, hp]
      have hns : notSeats (some q) = false := by simp [notSeats, hq0]
      cases hsel : selectEvent db with
      | nil =>
        left
        simp [createReservation, hnp, hns, hv, hsel]
      | cons row t =>
        have hev : theEvent db = some row := by
          unfold theEvent
          rw [hsel]
          rfl
        by_cases ha : (row.available_seats : ℚ) < q
        · left
          simp [createReservation, hnp, hns, hv, hsel, ha]
        · cases hcol : seatsColumn q with
          | none =>
            left
            simp [createReservation, hnp, hns, hv, hsel, ha, hcol, createFailed]
          | some n =>
            have hqn := eq_intCast_of_seatsColumn q n hcol
            subst hqn
            have h1 : 1 ≤ n := by
              have : 0 < n := by exact_mod_cast hpos
              omega
            have h10 : n ≤ 10 := by exact_mod_cast hle
            have hna : n ≤ row.available_seats := by
              have : ¬ row.available_seats < n := by exact_mod_cast ha
              omega
            right
            exact ⟨p, n, row, rfl, rfl, hev, h1, h10, hna,
              createReservation_accept db p n generated row hev hp h1 h10 hna⟩

theorem ledgerIds_cancel (rid : String) (l : List ReservationRow) :
    (l.map (cancelRow rid)).map (fun r => r.reservation_id)
      = l.map (fun r => r.reservation_id) := by
  rw [List.map_map]
  apply List.map_congr_left
  intro a _
  by_cases h : a.reservation_id = rid <;> simp [cancelRow, h]

theorem statuses_cancel (rid : String) (l : List ReservationRow)
    (h : ∀ r ∈ l, r.status = "confirmed" ∨ r.status = "cancelled") :
    ∀ r ∈ l.map (cancelRow rid), r.status = "confirmed" ∨ r.status = "cancelled" := by
  intro r hr
  obtain ⟨y, hy, rfl⟩ := List.mem_map.mp hr
  by_cases hid : y.reservation_id = rid
  · right; simp [cancelRow, hid]
  · have : cancelRow rid y = y := by simp [cancelRow, hid]
    rw [this]; exact h y hy

theorem seats_cancel (rid : String) (l : List ReservationRow)
    (h : ∀ r ∈ l, 0 ≤ r.seats) : ∀ r ∈ l.map (cancelRow rid), 0 ≤ r.seats := by
  intro r hr
  obtain ⟨y, hy, rfl⟩ := List.mem_map.mp hr
  by_cases hid : y.reservation_id = rid
  · have : (cancelRow rid y).seats = y.seats := by simp [cancelRow, hid]
    rw [this]; exact h y hy
  · have : cancelRow rid y = y := by simp [cancelRow, hid]
    rw [this]; exact h y hy

/-- What the conservation proof carries along: unique ids, known statuses and
the conservation equation. -/
theorem bootstrap_conserved (db : Db) :
    (ledgerIds (bootstrap db).db).Nodup ∧ StatusesKnown (bootstrap db).db ∧
      Conserved (bootstrap db).db := by
  refine ⟨List.nodup_nil, fun r hr => (by cases hr), ?_⟩
  intro e he
  have h1 : theEvent (bootstrap db).db = theEvent (resetEvent db) := rfl
  rw [h1, theEvent_resetEvent] at he
  cases hdb : theEvent db with
  | none => rw [hdb] at he; cases he
  | some e0 =>
    rw [hdb] at he
    simp only [Option.map_some', Option.some.injEq] at he
    subst he
    show (e0.total_seats : Int) + confirmedSeats [] = (e0.total_seats : Int)
    simp [confirmedSeats]

theorem create_conserved (db : Db) (partnerId : Option String) (seats : Option ℚ)
    (generated : String)
    (hinv : (ledgerIds db).Nodup ∧ StatusesKnown db ∧ Conserved db)
    (hfresh : (createReservation db partnerId seats generated).response.status = 201 →
      generated ∉ ledgerIds db) :
    (ledgerIds (createReservation db partnerId seats generated).db).Nodup ∧
      StatusesKnown (createReservation db partnerId seats generated).db ∧
      Conserved (createReservation db partnerId seats generated).db := by
  rcases createReservation_cases db partnerId seats generated with ⟨h, _⟩ | h
  · rw [h]; exact hinv
  · obtain ⟨p, n, e, _, _, hev, _, _, _, heq⟩ := h
    have hnot := hfresh (by rw [heq])
    rw [heq]
    obtain ⟨hnd, hst, hcons⟩ := hinv
    refine ⟨?_, ?_, ?_⟩
    · show ((db.reservations ++ [ReservationRow.mk generated EVENT_ID p n "confirmed"]).map
        (fun r => r.reservation_id)).Nodup
      rw [List.map_append, List.nodup_append]
      refine ⟨hnd, List.nodup_singleton _, ?_⟩
      intro a ha hb
      simp only [List.map_cons, List.map_nil, List.mem_singleton] at hb
      subst hb
      exact hnot ha
    · intro r hr
      have hr2 : r ∈ db.reservations ++ [ReservationRow.mk generated EVENT_ID p n "confirmed"] := hr
      rcases List.mem_append.mp hr2 with hr3 | hr3
      · exact hst r hr3
      · simp only [List.mem_singleton] at hr3
        subst hr3
        exact Or.inl rfl
    · intro e2 he2
      simp only [] at he2
      rw [theEvent_takeSeats, theEvent_congr db (insertReservation db generated EVENT_ID p n) rfl,
        hev] at he2
      simp only [Option.map_some', Option.some.injEq] at he2
      subst he2
      show e.available_seats - n
          + confirmedSeats (db.reservations ++ [ReservationRow.mk generated EVENT_ID p n "confirmed"])
        = (e.total_seats : Int)
      rw [confirmedSeats_append_confirmed _ _ rfl]
      have := hcons e hev
      simp only []
      omega

theorem cancel_conserved (db : Db) (rid : String)
    (hinv : (ledgerIds db).Nodup ∧ StatusesKnown db ∧ Conserved db) :
    (ledgerIds (cancelReservation db rid).db).Nodup ∧
      StatusesKnown (cancelReservation db rid).db ∧
      Conserved (cancelReservation db rid).db := by
  cases h : theReservation db rid with
  | none => rw [cancelReservation_unknown db rid h]; exact hinv
  | some r =>
    by_cases hs : r.status = "cancelled"
    · rw [cancelReservation_reject db rid r h hs]; exact hinv
    · rw [cancelReservation_accept db rid r h hs]
      obtain ⟨hnd, hst, hcons⟩ := hinv
      have hconf : r.status = "confirmed" := by
        rcases hst r (mem_of_theReservation db rid r h) with h1 | h1
        · exact h1
        · exact absurd h1 hs
      refine ⟨?_, ?_, ?_⟩
      · show ((db.reservations.map (cancelRow rid)).map (fun r => r.reservation_id)).Nodup
        rw [ledgerIds_cancel]; exact hnd
      · exact statuses_cancel rid db.reservations hst
      · intro e2 he2
        simp only [] at he2
        rw [theEvent_returnSeats, theEvent_congr db (markCancelled db rid) rfl] at he2
        cases hev : theEvent db with
        | none => rw [hev] at he2; cases he2
        | some e =>
          rw [hev] at he2
          simp only [Option.map_some', Option.some.injEq] at he2
          subst he2
          show e.available_seats + r.seats + confirmedSeats (db.reservations.map (cancelRow rid))
            = (e.total_seats : Int)
          rw [confirmedSeats_cancel_nodup rid r db.reservations hnd h hconf]
          have := hcons e hev
          omega

theorem run_conserved (calls : List Call) :
    ∀ db : Db, ((ledgerIds db).Nodup ∧ StatusesKnown db ∧ Conserved db) →
      freshIds db calls = true →
      (ledgerIds (run db calls)).Nodup ∧ StatusesKnown (run db calls) ∧
        Conserved (run db calls) := by
  induction calls with
  | nil => intro db h _; exact h
  | cons c cs ih =>
    intro db h hf
    simp only [freshIds, Bool.and_eq_true] at hf
    refine ih (step db c).db ?_ hf.2
    cases c with
    | bootstrap => exact bootstrap_conserved db
    | create p s g =>
      have hf1 := hf.1
      simp only [decide_eq_true_eq] at hf1
      exact create_conserved db p s g h hf1
    | cancel rid => exact cancel_conserved db rid h

/-- C1: in every store reached from a Bootstrap result by any finite sequence of
Bootstrap, CreateReservation and CancelReservation calls run one after the other,
each generated reservationId being absent from the ledger at the moment it is
generated, availableSeats plus the seats of all confirmed reservations equals
totalSeats. -/
theorem seat_conservation (db : Db) (calls : List Call) (e : EventRow)
    (hfresh : freshIds (bootstrap db).db calls = true)
    (hev : theEvent (run (bootstrap db).db calls) = some e) :
    e.available_seats + confirmedSeats (run (bootstrap db).db calls).reservations
      = (e.total_seats : Int) :=
  (run_conserved calls (bootstrap db).db (bootstrap_conserved db) hfresh).2.2 e hev

theorem seat_conservation_witness :
    freshIds (bootstrap db0).db
        [.create (some "p1") (some 3) "r1", .create (some "p2") (some 8) "r2",
         .create (some "p3") (some 5) "r3", .cancel "r1", .cancel "r1"] = true ∧
    theEvent (run (bootstrap db0).db
        [.create (some "p1") (some 3) "r1", .create (some "p2") (some 8) "r2",
         .create (some "p3") (some 5) "r3", .cancel "r1", .cancel "r1"])
      = some ⟨"node-meetup-2025", "Node.js Meet-up", 10, 5, 3⟩ ∧
    (5 : Int) + confirmedSeats (run (bootstrap db0).db
        [.create (some "p1") (some 3) "r1", .create (some "p2") (some 8) "r2",
         .create (some "p3") (some 5) "r3", .cancel "r1", .cancel "r1"]).reservations
      = ((10 : Nat) : Int) :=
  ⟨by decide, by decide,
   seat_conservation db0
     [.create (some "p1") (some 3) "r1", .create (some "p2") (some 8) "r2",
      .create (some "p3") (some 5) "r3", .cancel "r1", .cancel "r1"]
     ⟨"node-meetup-2025", "Node.js Meet-up", 10, 5, 3⟩ (by decide) (by decide)⟩

theorem bootstrap_notOversold (db : Db) :
    (∀ r ∈ (bootstrap db).db.reservations, 0 ≤ r.seats) ∧ StatusesKnown (bootstrap db).db ∧
      NotOversold (bootstrap db).db := by
  refine ⟨fun r hr => (by cases hr), fun r hr => (by cases hr), ?_⟩
  intro e he
  have h1 : theEvent (bootstrap db).db = theEvent (resetEvent db) := rfl
  rw [h1, theEvent_resetEvent] at he
  cases hdb : theEvent db with
  | none => rw [hdb] at he; cases he
  | some e0 =>
    rw [hdb] at he
    simp only [Option.map_some', Option.some.injEq] at he
    subst he
    show (0 : Int) ≤ (e0.total_seats : Int) ∧
      (e0.total_seats : Int) + confirmedSeats [] ≤ (e0.total_seats : Int)
    simp [confirmedSeats]

theorem create_notOversold (db : Db) (partnerId : Option String) (seats : Option ℚ)
    (generated : String)
    (hinv : (∀ r ∈ db.reservations, 0 ≤ r.seats) ∧ StatusesKnown db ∧ NotOversold db) :
    (∀ r ∈ (createReservation db partnerId seats generated).db.reservations, 0 ≤ r.seats) ∧
      StatusesKnown (createReservation db partnerId seats generated).db ∧
      NotOversold (createReservation db partnerId seats generated).db := by
  rcases createReservation_cases db partnerId seats generated with ⟨h, _⟩ | h
  · rw [h]; exact hinv
  · obtain ⟨p, n, e, _, _, hev, h1, _, ha, heq⟩ := h
    rw [heq]
    obtain ⟨hpos, hst, hcons⟩ := hinv
    refine ⟨?_, ?_, ?_⟩
    · intro r hr
      have hr2 : r ∈ db.reservations ++ [ReservationRow.mk generated EVENT_ID p n "confirmed"] :=
        hr
      rcases List.mem_append.mp hr2 with hr3 | hr3
      · exact hpos r hr3
      · simp only [List.mem_singleton] at hr3
        subst hr3
        show (0 : Int) ≤ n
        omega
    · intro r hr
      have hr2 : r ∈ db.reservations ++ [ReservationRow.mk generated EVENT_ID p n "confirmed"] :=
        hr
      rcases List.mem_append.mp hr2 with hr3 | hr3
      · exact hst r hr3
      · simp only [List.mem_singleton] at hr3
        subst hr3
        exact Or.inl rfl
    · intro e2 he2
      simp only [] at he2
      rw [theEvent_takeSeats, theEvent_congr db (insertReservation db generated EVENT_ID p n) rfl,
        hev] at he2
      simp only [Option.map_some', Option.some.injEq] at he2
      subst he2
      show (0 : Int) ≤ e.available_seats - n ∧ e.available_seats - n
          + confirmedSeats (db.reservations ++ [ReservationRow.mk generated EVENT_ID p n "confirmed"])
        ≤ (e.total_seats : Int)
      rw [confirmedSeats_append_confirmed _ _ rfl]
      have := hcons e hev
      simp only []
      omega

theorem cancel_notOversold (db : Db) (rid : String)
    (hinv : (∀ r ∈ db.reservations, 0 ≤ r.seats) ∧ StatusesKnown db ∧ NotOversold db) :
    (∀ r ∈ (cancelReservation db rid).db.reservations, 0 ≤ r.seats) ∧
      StatusesKnown (cancelReservation db rid).db ∧
      NotOversold (cancelReservation db rid).db := by
  cases h : theReservation db rid with
  | none => rw [cancelReservation_unknown db rid h]; exact hinv
  | some r =>
    by_cases hs : r.status = "cancelled"
    · rw [cancelReservation_reject db rid r h hs]; exact hinv
    · rw [cancelReservation_accept db rid r h hs]
      obtain ⟨hpos, hst, hcons⟩ := hinv
      have hmem := mem_of_theReservation db rid r h
      have hconf : r.status = "confirmed" := by
        rcases hst r hmem with h1 | h1
        · exact h1
        · exact absurd h1 hs
      refine ⟨seats_cancel rid db.reservations hpos, statuses_cancel rid db.reservations hst, ?_⟩
      intro e2 he2
      simp only [] at he2
      rw [theEvent_returnSeats, theEvent_congr db (markCancelled db rid) rfl] at he2
      cases hev : theEvent db with
      | none => rw [hev] at he2; cases he2
      | some e =>
        rw [hev] at he2
        simp only [Option.map_some', Option.some.injEq] at he2
        subst he2
        show (0 : Int) ≤ e.available_seats + r.seats ∧
          e.available_seats + r.seats + confirmedSeats (db.reservations.map (cancelRow rid))
            ≤ (e.total_seats : Int)
        have hle := confirmedSeats_cancel_le rid r db.reservations hpos h hconf
        have := hcons e hev
        have := hpos r hmem
        omega

theorem run_notOversold (calls : List Call) :
    ∀ db : Db, ((∀ r ∈ db.reservations, 0 ≤ r.seats) ∧ StatusesKnown db ∧ NotOversold db) →
      (∀ r ∈ (run db calls).reservations, 0 ≤ r.seats) ∧ StatusesKnown (run db calls) ∧
        NotOversold (run db calls) := by
  induction calls with
  | nil => intro db h; exact h
  | cons c cs ih =>
    intro db h
    refine ih (step db c).db ?_
    cases c with
    | bootstrap => exact bootstrap_notOversold db
    | create p s g => exact create_notOversold db p s g h
    | cancel rid => exact cancel_notOversold db rid h

/-- C2: in every store reached from a Bootstrap result by any finite sequence of
Bootstrap, CreateReservation and CancelReservation calls run one after the other
(whatever the generated ids), 0 <= availableSeats <= totalSeats. -/
theorem seats_within_bounds (db : Db) (calls : List Call) (e : EventRow)
    (hev : theEvent (run (bootstrap db).db calls) = some e) :
    0 ≤ e.available_seats ∧ e.available_seats ≤ (e.total_seats : Int) := by
  obtain ⟨hpos, _, hno⟩ := run_notOversold calls (bootstrap db).db (bootstrap_notOversold db)
  have h := hno e hev
  have hc := confirmedSeats_nonneg _ hpos
  omega

theorem seats_within_bounds_witness :
    theEvent (run (bootstrap db0).db
        [.create (some "p1") (some 3) "r1", .create (some "p2") (some 5) "r1",
         .cancel "r1", .cancel "r1", .create (some "p3") (some 10) "r3", .bootstrap,
         .create (some "p4") (some 10) "r4"])
      = some ⟨"node-meetup-2025", "Node.js Meet-up", 10, 0, 1⟩ ∧
    (0 : Int) ≤ 0 ∧ (0 : Int) ≤ ((10 : Nat) : Int) :=
  ⟨by decide,
   seats_within_bounds db0
     [.create (some "p1") (some 3) "r1", .create (some "p2") (some 5) "r1",
      .cancel "r1", .cancel "r1", .create (some "p3") (some 10) "r3", .bootstrap,
      .create (some "p4") (some 10) "r4"]
     ⟨"node-meetup-2025", "Node.js Meet-up", 10, 0, 1⟩ (by decide)⟩

/-! ## Status codes -/

/-- C10, as the code has it: validation failures answer 400, insufficient
inventory answers 409, an unknown reservation answers 404, a missing event and the
`catch` blocks answer 500, four different codes; an already cancelled reservation
answers 404 as well, and only the error message tells it from an unknown one. -/
theorem failure_status_codes (db : Db) (generated : String) :
    (∀ (partnerId : Option String) (seats : Option ℚ),
      (partnerId = none ∨ partnerId = some "" ∨ seats = none ∨
        (∃ n : Int, seats = some (n : ℚ) ∧ (n < 1 ∨ 10 < n)) ∨
        ∃ q : ℚ, seats = some q ∧ (q ≤ 0 ∨ 10 < q)) →
      (createReservation db partnerId seats generated).response.status = 400) ∧
    (∀ (p : String) (n : Int) (e : EventRow),
      theEvent db = some e → p ≠ "" → 1 ≤ n → n ≤ 10 → e.available_seats < n →
      (createReservation db (some p) (some (n : ℚ)) generated).response.status = 409) ∧
    (∀ (p : String) (n : Int), theEvent db = none → p ≠ "" → 1 ≤ n → n ≤ 10 →
      (createReservation db (some p) (some (n : ℚ)) generated).response.status = 500) ∧
    (theEvent db = none → (getSummary db).status = 500) ∧
    (∀ rid, theReservation db rid = none →
      (cancelReservation db rid).response = ⟨404, .error "Reservation not found"⟩) ∧
    (∀ rid r, theReservation db rid = some r → r.status = "cancelled" →
      (cancelReservation db rid).response = ⟨404, .error "Reservation already cancelled"⟩) ∧
    (bootstrapFailed.status = 500 ∧ createFailed.status = 500 ∧ cancelFailed.status = 500 ∧
      summaryFailed.status = 500) ∧
    ((400 : Nat) ≠ 409 ∧ (400 : Nat) ≠ 404 ∧ (400 : Nat) ≠ 500 ∧ (409 : Nat) ≠ 404 ∧
      (409 : Nat) ≠ 500 ∧ (404 : Nat) ≠ 500) ∧
    Body.error "Reservation not found" ≠ Body.error "Reservation already cancelled" := by
  have hsel : theEvent db = none → selectEvent db = [] := by
    intro hev
    unfold theEvent at hev
    cases hh : selectEvent db with
    | nil => rfl
    | cons a t => rw [hh] at hev; cases hev
  refine ⟨?_, ?_, ?_, ?_, ?_, ?_, ⟨rfl, rfl, rfl, rfl⟩, by decide, by decide⟩
  · intro partnerId seats h
    exact (createReservation_reject_input db partnerId seats generated h).1
  · intro p n e hev hp h1 h10 ha
    rw [createReservation_refuse db p n generated e hev hp h1 h10 ha]
  · intro p n hev hp h1 h10
    have h0 : (n : ℚ) ≠ 0 := by
      have : n ≠ 0 := by omega
      exact_mod_cast this
    have hpos : (0 : ℚ) < (n : ℚ) := by
      have : 0 < n := by omega
      exact_mod_cast this
    have hle : (n : ℚ) ≤ 10 := by exact_mod_cast h10
    simp [createReservation, notPartnerId, notSeats, hp, h0, validateSeatCount, hle, hpos,
      hsel hev]
  · intro hev
    unfold getSummary
    rw [hsel hev]
  · intro rid h
    rw [cancelReservation_unknown db rid h]
  · intro rid r h hs
    rw [cancelReservation_reject db rid r h hs]

theorem failure_status_codes_witness :
    (createReservation db3 (some "p1") (some ((11 : Int) : ℚ)) "r9").response.status = 400 ∧
    (createReservation db2 (some "p2") (some ((8 : Int) : ℚ)) "r9").response.status = 409 ∧
    (createReservation ⟨[], []⟩ (some "p2") (some ((8 : Int) : ℚ)) "r9").response.status = 500 ∧
    (cancelReservation db3 "unknown").response = ⟨404, .error "Reservation not found"⟩ ∧
    (cancelReservation db3 "r1").response = ⟨404, .error "Reservation already cancelled"⟩ :=
  ⟨(failure_status_codes db3 "r9").1 (some "p1") (some ((11 : Int) : ℚ))
     (Or.inr (Or.inr (Or.inr (Or.inl ⟨11, rfl, Or.inr (by decide)⟩)))),
   (failure_status_codes db2 "r9").2.1 "p2" 8 ⟨"node-meetup-2025", "Node.js Meet-up", 10, 7, 1⟩
     (by decide) (by decide) (by decide) (by decide) (by decide),
   (failure_status_codes ⟨[], []⟩ "r9").2.2.1 "p2" 8 (by decide) (by decide) (by decide)
     (by decide),
   (failure_status_codes db3 "r9").2.2.2.2.1 "unknown" (by decide),
   (failure_status_codes db3 "r9").2.2.2.2.2.1 "r1"
     ⟨"r1", "node-meetup-2025", "p1", 3, "cancelled"⟩ (by decide) (by decide)⟩

/-- C10, as stated, fails: in `db3` the reservation `r1` is cancelled and no
reservation is named `unknown`, yet cancelling either one answers the same status
code, 404. -/
theorem already_cancelled_status_is_not_found_status :
    theReservation db3 "r1" = some ⟨"r1", "node-meetup-2025", "p1", 3, "cancelled"⟩ ∧
    theReservation db3 "unknown" = none ∧
    ¬ ((cancelReservation db3 "r1").response.status
        ≠ (cancelReservation db3 "unknown").response.status) := by
  decide

/-! ## Interleaved cancellations -/

/-- C9 on the code: two cancellations of the confirmed 3-seat reservation `r1`, both
running their `SELECT` before either runs its `UPDATE`s, both answer 204 and return
the seats twice, leaving availableSeats = 13 above totalSeats = 10 and version = 3.
Served one after the other, in the
same model or by the handler itself, the second answers 404 and the store ends with
availableSeats = 10, version = 2. -/
theorem interleaved_cancel_double_refund :
    runSchedule twoCancels [0, 1, 0, 0, 0, 1, 1, 1]
      = { db := { events := [⟨"node-meetup-2025", "Node.js Meet-up", 10, 13, 3⟩],
                  reservations := [⟨"r1", "node-meetup-2025", "p1", 3, "cancelled"⟩] },
          sessions := [⟨"r1", .done ⟨204, .empty⟩⟩, ⟨"r1", .done ⟨204, .empty⟩⟩] } ∧
    runSchedule twoCancels [0, 0, 0, 0, 1]
      = { db := db3,
          sessions := [⟨"r1", .done ⟨204, .empty⟩⟩,
                       ⟨"r1", .done ⟨404, .error "Reservation already cancelled"⟩⟩] } ∧
    run db2 [.cancel "r1", .cancel "r1"] = db3 ∧
    responses db2 [.cancel "r1", .cancel "r1"]
      = [⟨204, .empty⟩, ⟨404, .error "Reservation already cancelled"⟩] := by
  decide

end TicketBoss
